import Mathlib

/-!
Verification of the concurrent web-acquisition core of the `news-summarizer`
repository: a shallow embedding of the registry (`src/news_summarizer/web/base.py`,
`BaseRegistry`), the bounded-concurrency executor (`BaseExecutor`), the rate
calculator (`src/news_summarizer/utils/_base.py`), the per-site scraper
`extract` methods (`src/news_summarizer/web/scraper/article_page.py`) and the
crawler pagination/scroll loops
(`src/news_summarizer/web/crawler/newspaper_website.py`), together with
theorems settling the specification's claims about them.

Conventions of the embedding:
* Python exceptions are modelled by `Except Err` (or an `Option Err` paired
  with the post-state where the claim is about the state left behind by a
  raise).
* Wall-clock times (`time.time()` values) are modelled as rationals.
* Python object identity for handler instances is modelled by an allocation
  counter: every factory invocation consumes a fresh id, mirroring the fact
  that every call of a Python class constructor yields a distinct object.
* The thread pool's completion order (`as_completed`) is modelled by
  quantifying over an arbitrary permutation of the submitted tasks; each
  submitted task is a `Completion`: its link, the value or exception produced
  by `_task_wrapper(self._run, link)`, and the time at which the executor's
  bookkeeping for it runs.
-/

namespace NewsSummarizer

/-- The Python exception classes that the embedded code distinguishes. -/
inductive Err where
  | valueError
  | keyError
  | typeError
  | nameError
  | zeroDivisionError
  | timeoutException
  | invalidSession
  | generic
deriving DecidableEq, Repr

/-! ## URL normalization (`urlparse` + `BaseRegistry._extract_netloc`)

`BaseRegistry.get` runs `urlparse(name)` and rebuilds
`f"{domain.scheme}://{domain.netloc}/"`.  We model `urlparse` for absolute
URLs: the scheme is everything before the first `"://"`, the netloc is the
following run of characters up to the first `/`.  On strings with no
`"://"` both components are empty, matching `urlparse` on scheme-less
strings (which yields empty scheme and netloc). -/

/-- Split a character list at the first occurrence of `"://"`. -/
def splitScheme : List Char → Option (List Char × List Char)
  | [] => none
  | ':' :: '/' :: '/' :: rest => some ([], rest)
  | c :: rest =>
    match splitScheme rest with
    | some (sc, r) => some (c :: sc, r)
    | none => none

namespace BaseRegistry

/-- `BaseRegistry._extract_netloc` composed with `urlparse`: normalize a URL
to `scheme://host/`. -/
def extract_netloc (url : String) : String :=
  match splitScheme url.toList with
  | some (sc, rest) =>
    String.mk sc ++ "://" ++ String.mk (rest.takeWhile (fun c => c ≠ '/')) ++ "/"
  | none => "" ++ "://" ++ "" ++ "/"

end BaseRegistry

/-- The registry's `self._components` dict: site key ↦ handler class (we
identify a handler class by its name).  Kept in insertion order, keys unique
by construction of `register`. -/
abbrev Components := List (String × String)

/-- Key lookup in the components dict. -/
def clookup : Components → String → Option String
  | [], _ => none
  | (k, v) :: rest, name => if k = name then some v else clookup rest name

/-- A handler instance: the class it was built from plus its allocation
identity (two Python constructor calls always yield distinct objects). -/
structure Instance where
  cls : String
  objId : Nat
deriving DecidableEq, Repr

namespace BaseRegistry

/-- `BaseRegistry.register`: raises `ValueError` when the key is already
present (before any mutation, so the dict is returned unchanged), otherwise
inserts the new binding.  The first component is the raised exception, if
any; the second is the dict after the call. -/
def register (c : Components) (name cls : String) : Option Err × Components :=
  if (clookup c name).isSome then (some Err.valueError, c)
  else (none, c ++ [(name, cls)])

/-- `BaseRegistry.get`: normalize the URL, raise `KeyError` when no component
is registered for the normalized key, otherwise invoke the factory --
`self._components[netloc]()` -- allocating a fresh instance.  `nextId` is the
allocation counter; the returned counter is threaded to the next call. -/
def get (c : Components) (name : String) (nextId : Nat) :
    Except Err (Instance × Nat) :=
  let netloc := extract_netloc name
  match clookup c netloc with
  | none => Except.error Err.keyError
  | some cls => Except.ok (⟨cls, nextId⟩, nextId + 1)

end BaseRegistry

/-- The scraper registry built at import time in
`src/news_summarizer/web/scraper/registry.py`. -/
def scraper_registry : Components :=
  [("https://g1.globo.com/", "G1Scraper"),
   ("https://bandnewstv.uol.com.br/", "BandScraper"),
   ("https://noticias.r7.com/", "R7Scraper"),
   ("https://www.bbc.com/", "BBCBrasilScraper"),
   ("https://www.cnnbrasil.com.br/", "CNNBrasilScraper")]

/-! ## Rate calculator (`src/news_summarizer/utils/_base.py`, `RateCalculator`) -/

namespace RateCalculator

/-- `RateCalculator._calculate_rate`: `rate = self._counter / (duration / 60)`
with `duration = time.time() - self._start_time`.  Python raises
`ZeroDivisionError` exactly when the divisor `duration / 60` is zero. -/
def calculate_rate (start_time current_time : ℚ) (counter : Nat) :
    Except Err ℚ :=
  let duration := current_time - start_time
  if duration / 60 = 0 then Except.error Err.zeroDivisionError
  else Except.ok (counter / (duration / 60))

end RateCalculator

/-! ## Executor (`src/news_summarizer/web/base.py`, `BaseExecutor.run`)

`run` builds `futures = {executor.submit(self._task_wrapper, self._run, link):
link for link in links}` -- one future per element of `links`, keyed by the
(always distinct) future objects -- and then folds over the futures in
`as_completed` order, an arbitrary permutation of the submission order. -/

/-- The executor's `results` dict: link ↦ recorded boolean. -/
abbrev ResultMap := List (String × Bool)

/-- Python dict key lookup. -/
def dlookup : ResultMap → String → Option Bool
  | [], _ => none
  | (k, v) :: rest, name => if k = name then some v else dlookup rest name

/-- Python dict assignment `d[k] = v`: overwrite in place when the key is
present (a Python dict keeps the original insertion position), append
otherwise. -/
def dinsert : ResultMap → String → Bool → ResultMap
  | [], k, v => [(k, v)]
  | (k', v') :: rest, k, v =>
    if k' = k then (k', v) :: rest else (k', v') :: dinsert rest k v

/-- One completed future as the executor observes it: the link it was
submitted for, the outcome of `future.result()` (a boolean, or the exception
that escaped `_task_wrapper`), and the value of `time.time()` when the
executor's per-completion bookkeeping runs. -/
structure Completion where
  link : String
  outcome : Except Err Bool
  time : ℚ
deriving Repr

namespace BaseExecutor

/-- The body of `BaseExecutor.run`'s `for future in as_completed(futures)`
loop for one completed future, acting on `(results, self._counter)`.
Mirrors the source order: `results[link] = result`, `self._counter += 1`,
`rate = self._calculate_rate()`; any exception -- from `future.result()` or
from the rate computation -- lands in the `except` clause, which performs
`results[link] = False`. -/
def processFuture (start_time : ℚ) (st : ResultMap × Nat) (c : Completion) :
    ResultMap × Nat :=
  match c.outcome with
  | Except.error _ => (dinsert st.1 c.link false, st.2)
  | Except.ok result =>
    let results := dinsert st.1 c.link result
    let counter := st.2 + 1
    match RateCalculator.calculate_rate start_time c.time counter with
    | Except.ok _ => (results, counter)
    | Except.error _ => (dinsert results c.link false, counter)

/-- `BaseExecutor.run`: starting from an empty dict and a zero counter,
process every completed future; the dict is returned only after the whole
completion list -- every submitted task -- has been folded. -/
def run (start_time : ℚ) (completions : List Completion) : ResultMap :=
  (completions.foldl (processFuture start_time) ([], 0)).1

end BaseExecutor

namespace ScraperExecutor

/-- `ScraperExecutor._run`: `self.registry.get(link)` may raise (the
exception propagates out of `_run`, to be caught at `run`'s task boundary);
otherwise `scraper.extract(link)` decides the boolean: `True` when it
returns, `False` when it raises.  `resolution` is the outcome of the
registry call, `extraction` the outcome of `extract`. -/
def runLink (resolution : Except Err Instance) (extraction : Except Err Unit) :
    Except Err Bool :=
  match resolution with
  | Except.error e => Except.error e
  | Except.ok _ =>
    match extraction with
    | Except.ok _ => Except.ok true
    | Except.error _ => Except.ok false

end ScraperExecutor

/-! ## Scraper handlers (`src/news_summarizer/web/scraper/article_page.py`)

A page is modelled by what each site-specific selector finds on it:
`none` means the corresponding `soup.find(...)` returned `None`, so the
subsequent attribute access raises `AttributeError` inside the field
extractor.  `page_empty` models `len(self.soup) == 0`.

Every `extract` returns a pair: the call's outcome (`Except.ok ()` when it
returns normally, `Except.error e` when exception `e` escapes it) and a
Boolean recording whether `save()` was called on the constructed Article
before `extract` finished. -/

structure ArticlePage where
  page_empty : Bool
  title : Option String
  author : Option String
  subtitle : Option String
  content : Option String
  pub_date : Option String
deriving DecidableEq, Repr

/-- The shared `except` clauses of every scraper's `extract`:
`except ValueError` and `except InvalidSessionIdException` log and swallow
the exception (the method returns normally); the final `except Exception`
re-raises.  `body` is the outcome of the `try` block, carrying the
saved-flag on success. -/
def scraperHandlers (body : Except Err Bool) : Except Err Unit × Bool :=
  match body with
  | Except.ok saved => (Except.ok (), saved)
  | Except.error Err.valueError => (Except.ok (), false)
  | Except.error Err.invalidSession => (Except.ok (), false)
  | Except.error e => (Except.error e, false)

namespace G1Scraper

/-- `G1Scraper._extract_title`: `soup.find("h1", class_="content-head__title")
.text`; a missing element raises `AttributeError`, converted to
`ValueError`. -/
def extract_title (p : ArticlePage) : Except Err String :=
  match p.title with
  | some t => Except.ok t
  | none => Except.error Err.valueError

/-- `G1Scraper._extract_author`: returns `None` (and logs a warning) when the
author element is missing. -/
def extract_author (p : ArticlePage) : Option String := p.author

/-- `G1Scraper._extract_subtitle`: optional, degrades to `None`. -/
def extract_subtitle (p : ArticlePage) : Option String := p.subtitle

/-- `G1Scraper._extract_content`: mandatory, raises `ValueError` when the
selector fails. -/
def extract_content (p : ArticlePage) : Except Err String :=
  match p.content with
  | some c => Except.ok c
  | none => Except.error Err.valueError

/-- `G1Scraper._extract_publication_date`:
`soup.find("time", itemprop="datePublished")["datetime"]` with only
`AttributeError` caught.  A missing `time` element makes `find` return
`None`, and subscripting `None` raises `TypeError` -- which the `except
AttributeError` clause does not catch, so it propagates and fails the
call. -/
def extract_publication_date (p : ArticlePage) : Except Err String :=
  match p.pub_date with
  | some d => Except.ok d
  | none => Except.error Err.typeError

/-- The `try` block of `G1Scraper.extract`: empty-page check, the five field
extractions in source order, Article construction, then `intance.save()`
(hence `Except.ok true`: the record was persisted). -/
def tryBody (p : ArticlePage) : Except Err Bool :=
  if p.page_empty then Except.error Err.valueError
  else do
    let _title ← extract_title p
    let _author := extract_author p
    let _subtitle := extract_subtitle p
    let _content ← extract_content p
    let _pub ← extract_publication_date p
    pure true

/-- `G1Scraper.extract`: the `try` body wrapped in the shared `except`
clauses. -/
def extract (p : ArticlePage) : Except Err Unit × Bool :=
  scraperHandlers (tryBody p)

end G1Scraper

namespace BBCBrasilScraper

/-- `BBCBrasilScraper._extract_title`: mandatory, raises `ValueError`. -/
def extract_title (p : ArticlePage) : Except Err String :=
  match p.title with
  | some t => Except.ok t
  | none => Except.error Err.valueError

/-- `BBCBrasilScraper._extract_content`: mandatory, raises `ValueError`. -/
def extract_content (p : ArticlePage) : Except Err String :=
  match p.content with
  | some c => Except.ok c
  | none => Except.error Err.valueError

/-- `BBCBrasilScraper._extract_publication_date`: a missing `time` element
raises `TypeError` (`None["datetime"]`), which the
`except (AttributeError, TypeError)` clause catches -- but that clause's
body logs `%s` against the name `at`, which is unbound in this method, so
the handler itself raises `NameError` and the call does not return
`None`. -/
def extract_publication_date (p : ArticlePage) : Except Err String :=
  match p.pub_date with
  | some d => Except.ok d
  | none => Except.error Err.nameError

/-- The `try` block of `BBCBrasilScraper.extract`: after constructing the
Article the method executes `return instance` -- it never calls `save()`,
hence `Except.ok false`. -/
def tryBody (p : ArticlePage) : Except Err Bool :=
  if p.page_empty then Except.error Err.valueError
  else do
    let _title ← extract_title p
    let _author := p.author
    let _subtitle := p.subtitle
    let _content ← extract_content p
    let _pub ← extract_publication_date p
    pure false

/-- `BBCBrasilScraper.extract`. -/
def extract (p : ArticlePage) : Except Err Unit × Bool :=
  scraperHandlers (tryBody p)

end BBCBrasilScraper

namespace CNNBrasilScraper

/-- `CNNBrasilScraper._extract_title`: mandatory, raises `ValueError`. -/
def extract_title (p : ArticlePage) : Except Err String :=
  match p.title with
  | some t => Except.ok t
  | none => Except.error Err.valueError

/-- `CNNBrasilScraper._extract_content`: mandatory, raises `ValueError`. -/
def extract_content (p : ArticlePage) : Except Err String :=
  match p.content with
  | some c => Except.ok c
  | none => Except.error Err.valueError

/-- The `try` block of `CNNBrasilScraper.extract`: ends in
`return instance`, with no `save()` call, hence `Except.ok false`. -/
def tryBody (p : ArticlePage) : Except Err Bool :=
  if p.page_empty then Except.error Err.valueError
  else do
    let _title ← extract_title p
    let _author := p.author
    let _subtitle := p.subtitle
    let _content ← extract_content p
    let _pub := p.pub_date
    pure false

/-- `CNNBrasilScraper.extract`. -/
def extract (p : ArticlePage) : Except Err Unit × Bool :=
  scraperHandlers (tryBody p)

end CNNBrasilScraper

/-! ## Crawler pagination/scroll loops
(`src/news_summarizer/web/crawler/newspaper_website.py`)

Each `scroll_page` is a `while True` loop.  We embed one loop iteration as a
step function from the loop's mutable state and the iteration's environment
(the elapsed wall-clock time observed at the loop head, and what the browser
interaction produced) to either `stop` (a `break` was executed) or `next`
(the iteration fell through to the next one, including the `continue`
paths).  A whole run consumes a list of per-iteration environments;
`none` means the loop was still running when the list was exhausted. -/

/-- Module-level constant `MAX_RETRIES = 5`. -/
def MAX_RETRIES : Nat := 5

/-- Module-level constant `MAX_REPEATED_PAGE_COUNT = 10`. -/
def MAX_REPEATED_PAGE_COUNT : Nat := 10

/-- Module-level constant `TIMEOUT = 300` (seconds). -/
def TIMEOUT : ℚ := 300

/-- Outcome of one loop iteration: `stop` embeds `break`, `next` embeds
falling through (or `continue`) with the updated state. -/
inductive StepRes (σ : Type) where
  | stop (s : σ)
  | next (s : σ)
deriving DecidableEq, Repr

/-- The environment one iteration runs in: the elapsed time measured at the
loop head and the event the browser produced. -/
structure CrawlInput (ε : Type) where
  elapsed : ℚ
  ev : ε
deriving DecidableEq, Repr

/-- What the `try` block observes in the page-marker crawlers: a
`TimeoutException` from one of the bounded waits, any other exception
(the final `except Exception` clause breaks), or a successfully read page
marker. -/
inductive MarkerEvent where
  | waitTimeout
  | fatal
  | page (n : Nat)
deriving DecidableEq, Repr

/-- The generic `while True` driver: run `step` over the list of
per-iteration environments, returning the state at the `break` (`some`) or
`none` when the environment list is exhausted with the loop still
running. -/
def crawlRun {σ ε : Type} (step : σ → CrawlInput ε → StepRes σ) :
    σ → List (CrawlInput ε) → Option σ
  | _, [] => none
  | s, i :: rest =>
    match step s i with
    | StepRes.stop s' => some s'
    | StepRes.next s' => crawlRun step s' rest

namespace G1Crawler

/-- Mutable state of `G1Crawler.scroll_page`'s loop (`load_more`,
`last_page_number`, `repeated_page_count`, `retry_count`, all starting at
0). -/
structure ScrollState where
  load_more : Nat
  last_page_number : Nat
  repeated_page_count : Nat
  retry_count : Nat
deriving DecidableEq, Repr

/-- One iteration of `G1Crawler.scroll_page`, in source order:
elapsed-time ceiling (`break`), retry ceiling (`break`), then the `try`
block: a wait timeout increments `retry_count` and continues; any other
exception breaks; a read marker updates `repeated_page_count`
(incremented when unchanged, reset when changed), breaks when it exceeds
`MAX_REPEATED_PAGE_COUNT`, advances `load_more`/`last_page_number` on a
larger marker and breaks at the scroll limit, and otherwise clicks and
continues. -/
def scroll_step (scroll_limit : Nat) (s : ScrollState)
    (inp : CrawlInput MarkerEvent) : StepRes ScrollState :=
  if inp.elapsed > TIMEOUT then StepRes.stop s
  else if s.retry_count > MAX_RETRIES then StepRes.stop s
  else
    match inp.ev with
    | MarkerEvent.waitTimeout =>
      StepRes.next { s with retry_count := s.retry_count + 1 }
    | MarkerEvent.fatal => StepRes.stop s
    | MarkerEvent.page n =>
      let rep := if n = s.last_page_number then s.repeated_page_count + 1 else 0
      if rep > MAX_REPEATED_PAGE_COUNT then
        StepRes.stop { s with repeated_page_count := rep }
      else if n > s.last_page_number then
        let lm := s.load_more + 1
        if lm ≥ scroll_limit then
          StepRes.stop { s with load_more := lm, last_page_number := n,
                                repeated_page_count := rep }
        else
          StepRes.next { s with load_more := lm, last_page_number := n,
                                repeated_page_count := rep }
      else StepRes.next { s with repeated_page_count := rep }

/-- `G1Crawler.scroll_page` as a run of its loop. -/
def scroll_run (scroll_limit : Nat) :
    ScrollState → List (CrawlInput MarkerEvent) → Option ScrollState :=
  crawlRun (scroll_step scroll_limit)

end G1Crawler

namespace BandCrawler

/-- What `BandCrawler.scroll_page`'s `try` block observes.  Unlike the other
crawlers, Band has an extra `except StaleElementReferenceException` clause
that retries, so a stale element is its own event. -/
inductive Event where
  | waitTimeout
  | stale
  | fatal
  | page (n : Nat)
deriving DecidableEq, Repr

/-- Mutable state of `BandCrawler.scroll_page`'s loop. -/
structure ScrollState where
  load_more : Nat
  last_page_number : Nat
  repeated_page_count : Nat
  retry_count : Nat
deriving DecidableEq, Repr

/-- One iteration of `BandCrawler.scroll_page` (newspaper_website.py lines
255-325): same structure as `G1Crawler` -- elapsed-time ceiling, retry
ceiling, marker read from the button's `data-page` attribute, repeated-page
counter with break above `MAX_REPEATED_PAGE_COUNT`, scroll-limit break on
advancing markers -- plus a stale-element catch that increments
`retry_count` and continues. -/
def scroll_step (scroll_limit : Nat) (s : ScrollState)
    (inp : CrawlInput Event) : StepRes ScrollState :=
  if inp.elapsed > TIMEOUT then StepRes.stop s
  else if s.retry_count > MAX_RETRIES then StepRes.stop s
  else
    match inp.ev with
    | Event.waitTimeout =>
      StepRes.next { s with retry_count := s.retry_count + 1 }
    | Event.stale =>
      StepRes.next { s with retry_count := s.retry_count + 1 }
    | Event.fatal => StepRes.stop s
    | Event.page n =>
      let rep := if n = s.last_page_number then s.repeated_page_count + 1 else 0
      if rep > MAX_REPEATED_PAGE_COUNT then
        StepRes.stop { s with repeated_page_count := rep }
      else if n > s.last_page_number then
        let lm := s.load_more + 1
        if lm ≥ scroll_limit then
          StepRes.stop { s with load_more := lm, last_page_number := n,
                                repeated_page_count := rep }
        else
          StepRes.next { s with load_more := lm, last_page_number := n,
                                repeated_page_count := rep }
      else StepRes.next { s with repeated_page_count := rep }

/-- `BandCrawler.scroll_page` as a run of its loop. -/
def scroll_run (scroll_limit : Nat) :
    ScrollState → List (CrawlInput Event) → Option ScrollState :=
  crawlRun (scroll_step scroll_limit)

end BandCrawler

namespace CNNBrasilCrawler

/-- Mutable state of `CNNBrasilCrawler.scroll_page`'s loop. -/
structure ScrollState where
  load_more : Nat
  last_page_number : Nat
  repeated_page_count : Nat
  retry_count : Nat
deriving DecidableEq, Repr

/-- One iteration of `CNNBrasilCrawler.scroll_page` (newspaper_website.py
lines 510-572): the same structure as `G1Crawler`'s loop with the marker
read from the button's `data-limit` attribute -- elapsed-time ceiling, retry
ceiling, wait timeout retries, generic exception breaks, repeated-page
counter with break above `MAX_REPEATED_PAGE_COUNT`, scroll-limit break on
advancing markers. -/
def scroll_step (scroll_limit : Nat) (s : ScrollState)
    (inp : CrawlInput MarkerEvent) : StepRes ScrollState :=
  if inp.elapsed > TIMEOUT then StepRes.stop s
  else if s.retry_count > MAX_RETRIES then StepRes.stop s
  else
    match inp.ev with
    | MarkerEvent.waitTimeout =>
      StepRes.next { s with retry_count := s.retry_count + 1 }
    | MarkerEvent.fatal => StepRes.stop s
    | MarkerEvent.page n =>
      let rep := if n = s.last_page_number then s.repeated_page_count + 1 else 0
      if rep > MAX_REPEATED_PAGE_COUNT then
        StepRes.stop { s with repeated_page_count := rep }
      else if n > s.last_page_number then
        let lm := s.load_more + 1
        if lm ≥ scroll_limit then
          StepRes.stop { s with load_more := lm, last_page_number := n,
                                repeated_page_count := rep }
        else
          StepRes.next { s with load_more := lm, last_page_number := n,
                                repeated_page_count := rep }
      else StepRes.next { s with repeated_page_count := rep }

/-- `CNNBrasilCrawler.scroll_page` as a run of its loop. -/
def scroll_run (scroll_limit : Nat) :
    ScrollState → List (CrawlInput MarkerEvent) → Option ScrollState :=
  crawlRun (scroll_step scroll_limit)

end CNNBrasilCrawler

namespace BBCBrasilCrawler

/-- Mutable state of `BBCBrasilCrawler.scroll_page`'s loop: unlike the
other page-marker crawlers there is **no** `repeated_page_count`
variable. -/
structure ScrollState where
  load_more : Nat
  last_page_number : Nat
  retry_count : Nat
deriving DecidableEq, Repr

/-- One iteration of `BBCBrasilCrawler.scroll_page`: elapsed-time ceiling,
retry ceiling, then the `try` block; an unchanged (or smaller) marker takes
no branch at all -- the loop just appends the page source and clicks
again. -/
def scroll_step (scroll_limit : Nat) (s : ScrollState)
    (inp : CrawlInput MarkerEvent) : StepRes ScrollState :=
  if inp.elapsed > TIMEOUT then StepRes.stop s
  else if s.retry_count > MAX_RETRIES then StepRes.stop s
  else
    match inp.ev with
    | MarkerEvent.waitTimeout =>
      StepRes.next { s with retry_count := s.retry_count + 1 }
    | MarkerEvent.fatal => StepRes.stop s
    | MarkerEvent.page n =>
      if n > s.last_page_number then
        let lm := s.load_more + 1
        if lm ≥ scroll_limit then
          StepRes.stop { s with load_more := lm, last_page_number := n }
        else
          StepRes.next { s with load_more := lm, last_page_number := n }
      else StepRes.next s

/-- `BBCBrasilCrawler.scroll_page` as a run of its loop. -/
def scroll_run (scroll_limit : Nat) :
    ScrollState → List (CrawlInput MarkerEvent) → Option ScrollState :=
  crawlRun (scroll_step scroll_limit)

end BBCBrasilCrawler

namespace R7Crawler

/-- What the `try` block observes in `R7Crawler.scroll_page`: a wait
timeout, any other exception, or a successful iteration reading the new
document height. -/
inductive HeightEvent where
  | waitTimeout
  | fatal
  | height (h : Nat)
deriving DecidableEq, Repr

/-- Mutable state of `R7Crawler.scroll_page`'s loop. -/
structure ScrollState where
  load_more : Nat
  last_height : Nat
  retry_count : Nat
deriving DecidableEq, Repr

/-- One iteration of `R7Crawler.scroll_page`.  The elapsed-time check at the
loop head only logs "Timeout reached. Stopping the crawl." -- the source has
no `break` there (lines 386-388), so the branch does not affect the
iteration's outcome.  The retry ceiling breaks; in the `try` block the
scroll-limit check breaks before the click, and a changed document height
advances `load_more`/`last_height`. -/
def scroll_step (scroll_limit : Nat) (s : ScrollState)
    (inp : CrawlInput HeightEvent) : StepRes ScrollState :=
  let _timed_out := inp.elapsed > TIMEOUT
  if s.retry_count > MAX_RETRIES then StepRes.stop s
  else
    match inp.ev with
    | HeightEvent.waitTimeout =>
      StepRes.next { s with retry_count := s.retry_count + 1 }
    | HeightEvent.fatal => StepRes.stop s
    | HeightEvent.height h =>
      if s.load_more ≥ scroll_limit then StepRes.stop s
      else if h ≠ s.last_height then
        StepRes.next { s with load_more := s.load_more + 1, last_height := h }
      else StepRes.next s

/-- `R7Crawler.scroll_page` as a run of its loop. -/
def scroll_run (scroll_limit : Nat) :
    ScrollState → List (CrawlInput HeightEvent) → Option ScrollState :=
  crawlRun (scroll_step scroll_limit)

end R7Crawler

/-! ## Semaphore discipline (`BaseExecutor.__init__` / `_task_wrapper`)

`__init__` creates `Semaphore(max_concurrent)`; `_task_wrapper` executes
`with self.semaphore: try: return function(*args) finally: <release>` --
a task is inside the guarded section (resolving its handler and running
`process`) exactly between its acquire and its release, and the release
fires on both exit paths of the handler call.

We model a run as a transition system over the phases of the submitted
tasks.  An `acquire` step is enabled for a pending task only when fewer
than `k` tasks currently hold the semaphore (counting-semaphore semantics
of size `k`); a `release` step moves a task holding the semaphore to done,
whatever the outcome of its handler call was. -/

/-- The phase of one submitted task with respect to the semaphore. -/
inductive Phase where
  | pending
  | inside
  | done
deriving DecidableEq, Repr

/-- Whether a task currently holds the semaphore. -/
def isInside : Phase → Bool
  | Phase.inside => true
  | _ => false

/-- Number of tasks currently inside the guarded section. -/
def countInside (l : List Phase) : Nat := l.countP isInside

/-- One scheduler step of the semaphore-guarded execution with capacity
`k`. -/
inductive SemStep (k : Nat) : List Phase → List Phase → Prop
  | acquire (l : List Phase) (i : Nat)
      (hi : l.get? i = some Phase.pending) (hk : countInside l < k) :
      SemStep k l (l.set i Phase.inside)
  | release (l : List Phase) (i : Nat) (outcome : Except Err Bool)
      (hi : l.get? i = some Phase.inside) :
      SemStep k l (l.set i Phase.done)

/-- Initial configuration: `n` submitted tasks, none started. -/
def initPhases (n : Nat) : List Phase := List.replicate n Phase.pending

/-! ## Concrete pages used to evaluate the scraper code -/

/-- An article page on which every site selector succeeds. -/
def fullPage : ArticlePage :=
  ⟨false, some "t", some "a", some "s", some "c", some "d"⟩

/-- An article page whose mandatory title element is missing. -/
def noTitlePage : ArticlePage :=
  ⟨false, none, some "a", some "s", some "c", some "d"⟩

/-- An article page whose optional author element is missing. -/
def noAuthorPage : ArticlePage :=
  ⟨false, some "t", none, some "s", some "c", some "d"⟩

/-! ## Theorems -/

/-- Lookup distributes over appending registrations. -/
lemma clookup_append (c₁ c₂ : Components) (k : String) :
    clookup (c₁ ++ c₂) k =
      match clookup c₁ k with
      | some v => some v
      | none => clookup c₂ k := by
  induction c₁ with
  | nil => rfl
  | cons hd tl ih =>
    obtain ⟨k', v'⟩ := hd
    by_cases h : k' = k <;> simp [clookup, h, ih]

/-- C4.  Evaluation of the scraper `extract` methods at a page on which
every field extraction succeeds: `CNNBrasilScraper.extract` and
`BBCBrasilScraper.extract` return normally with `save()` never called
(their `try` blocks end in `return instance`), contradicting the claim
that a successful `process` call persists the Article before returning;
`G1Scraper.extract` does call `save()` on this path. -/
theorem scraper_success_without_save :
    CNNBrasilScraper.extract fullPage = (Except.ok (), false) ∧
    BBCBrasilScraper.extract fullPage = (Except.ok (), false) ∧
    G1Scraper.extract fullPage = (Except.ok (), true) :=
  ⟨rfl, rfl, rfl⟩

/-- C5.  Evaluation at a page missing the mandatory title:
`_extract_title` raises `ValueError`, but `extract`'s `except ValueError`
clause swallows it, so `extract` returns normally (without saving) and
`ScraperExecutor._run` records the task as `True` -- the claim that a
missing mandatory field makes the task fail is violated.  The optional
branch of the claim does hold: a missing author degrades to `None` and the
article is saved. -/
theorem g1_mandatory_failure_swallowed :
    G1Scraper.extract_title noTitlePage = Except.error Err.valueError ∧
    G1Scraper.extract noTitlePage = (Except.ok (), false) ∧
    ScraperExecutor.runLink (Except.ok ⟨"G1Scraper", 0⟩)
      (G1Scraper.extract noTitlePage).1 = Except.ok true ∧
    G1Scraper.extract noAuthorPage = (Except.ok (), true) :=
  ⟨rfl, rfl, rfl, rfl⟩

/-- C6.  Evaluation of the scroll loops at iterations whose elapsed time
(301 s) exceeds `TIMEOUT = 300`: `R7Crawler.scroll_page` only logs at its
elapsed-time check -- there is no `break` -- so the loop keeps iterating
(five full iterations here, none of them terminating), while
`G1Crawler.scroll_page` breaks on the very iteration that observes the
exceeded ceiling. -/
theorem r7_elapsed_ceiling_not_enforced :
    R7Crawler.scroll_run 50 ⟨0, 0, 0⟩
      (List.replicate 5 ⟨301, R7Crawler.HeightEvent.height 7⟩) = none ∧
    G1Crawler.scroll_run 50 ⟨0, 0, 0, 0⟩
      [⟨301, MarkerEvent.page 1⟩] = some ⟨0, 0, 0, 0⟩ := by
  constructor
  · decide
  · decide

/-- C7 counterexample.  A "load more" control that reports page marker 1 on
every iteration: after 11 iterations (one marker change from the initial 0,
then 10 consecutive unchanged-marker iterations) `G1Crawler.scroll_page` is
still running -- the loop does not terminate within
`MAX_REPEATED_PAGE_COUNT = 10` consecutive unchanged-marker iterations as
claimed, because the source breaks only when the counter strictly exceeds
the threshold. -/
theorem g1_repeated_marker_not_within_threshold :
    G1Crawler.scroll_run 50 ⟨0, 0, 0, 0⟩
      (List.replicate 11 ⟨0, MarkerEvent.page 1⟩) = none := by
  decide

/-- C10 counterexample.  A task that returns `True` and completes at the
same `time.time()` instant at which `run` started: the rate computation
divides by a zero duration, the `ZeroDivisionError` lands in the `for`
loop's `except` clause, and `results[link] = False` overwrites the already
recorded `True` -- the telemetry step changed which result is recorded. -/
theorem telemetry_overwrites_result :
    (Completion.mk "a" (Except.ok true) 0).outcome = Except.ok true ∧
    BaseExecutor.run 0 [Completion.mk "a" (Except.ok true) 0] =
      [("a", false)] := by
  constructor
  · rfl
  · simp [BaseExecutor.run, BaseExecutor.processFuture,
      RateCalculator.calculate_rate, dinsert]

/-- C1 counterexample.  Two submitted targets that are the same string:
`run` receives a two-element input list but returns a one-entry result map
(the dict write for the second completion overwrites the first), so the
result map does not contain "exactly N entries" for every input list of
`N` targets. -/
theorem run_duplicate_targets_collapse :
    ([Completion.mk "a" (Except.ok true) 1,
      Completion.mk "a" (Except.ok true) 1].map Completion.link =
        ["a", "a"]) ∧
    (["a", "a"] : List String).length = 2 ∧
    (BaseExecutor.run 0
      [Completion.mk "a" (Except.ok true) 1,
       Completion.mk "a" (Except.ok true) 1]).length = 1 := by
  refine ⟨rfl, rfl, ?_⟩
  simp [BaseExecutor.run, BaseExecutor.processFuture,
    RateCalculator.calculate_rate, dinsert]

/-- C8.  `BaseRegistry.get`: whenever the `scheme://host/` normalization of
the URL is a registered key, `get` invokes the registered factory and
returns a freshly allocated handler instance -- two successive calls with
the same URL return instances with distinct identities -- and whenever the
normalization matches no key, `get` raises `KeyError`. -/
theorem registry_get_fresh_instances :
    (∀ (c : Components) (url cls : String) (n : Nat),
        clookup c (BaseRegistry.extract_netloc url) = some cls →
        BaseRegistry.get c url n = Except.ok (⟨cls, n⟩, n + 1) ∧
        BaseRegistry.get c url (n + 1) = Except.ok (⟨cls, n + 1⟩, n + 2) ∧
        Instance.mk cls n ≠ Instance.mk cls (n + 1)) ∧
    (∀ (c : Components) (url : String) (n : Nat),
        clookup c (BaseRegistry.extract_netloc url) = none →
        BaseRegistry.get c url n = Except.error Err.keyError) := by
  constructor
  · intro c url cls n h
    refine ⟨?_, ?_, ?_⟩
    · simp [BaseRegistry.get, h]
    · simp [BaseRegistry.get, h]
    · simp
  · intro c url n h
    simp [BaseRegistry.get, h]

/-- C8 witness: the scraper registry resolves a G1 article URL twice to two
distinct `G1Scraper` instances, and an unregistered host raises
`KeyError`. -/
theorem registry_get_fresh_instances_witness :
    BaseRegistry.get scraper_registry "https://g1.globo.com/noticia/a.ghtml" 0 =
      Except.ok (⟨"G1Scraper", 0⟩, 1) ∧
    BaseRegistry.get scraper_registry "https://g1.globo.com/noticia/a.ghtml" 1 =
      Except.ok (⟨"G1Scraper", 1⟩, 2) ∧
    Instance.mk "G1Scraper" 0 ≠ Instance.mk "G1Scraper" 1 ∧
    BaseRegistry.get scraper_registry "https://unregistered.example/x" 0 =
      Except.error Err.keyError := by
  obtain ⟨h₁, h₂⟩ := registry_get_fresh_instances
  have ha := h₁ scraper_registry "https://g1.globo.com/noticia/a.ghtml"
    "G1Scraper" 0 rfl
  exact ⟨ha.1, ha.2.1, ha.2.2,
    h₂ scraper_registry "https://unregistered.example/x" 0 rfl⟩

/-- C9.  `BaseRegistry.register`: registering a key that is already present
raises `ValueError` with the components dict unchanged (the raise precedes
the assignment); registering two distinct fresh keys succeeds, and both
keys afterwards look up their own factories independently. -/
theorem register_duplicate_raises_fresh_succeed :
    (∀ (c : Components) (name cls cls₀ : String),
        clookup c name = some cls₀ →
        BaseRegistry.register c name cls = (some Err.valueError, c)) ∧
    (∀ (c : Components) (k₁ k₂ f₁ f₂ : String),
        k₁ ≠ k₂ → clookup c k₁ = none → clookup c k₂ = none →
        BaseRegistry.register c k₁ f₁ = (none, c ++ [(k₁, f₁)]) ∧
        BaseRegistry.register (c ++ [(k₁, f₁)]) k₂ f₂ =
          (none, c ++ [(k₁, f₁)] ++ [(k₂, f₂)]) ∧
        clookup (c ++ [(k₁, f₁)] ++ [(k₂, f₂)]) k₁ = some f₁ ∧
        clookup (c ++ [(k₁, f₁)] ++ [(k₂, f₂)]) k₂ = some f₂) := by
  constructor
  · intro c name cls cls₀ h
    simp [BaseRegistry.register, h]
  · intro c k₁ k₂ f₁ f₂ hne h₁ h₂
    have hk₂ : clookup (c ++ [(k₁, f₁)]) k₂ = none := by
      simp [clookup_append, h₂, clookup, hne]
    refine ⟨by simp [BaseRegistry.register, h₁], by
      simp [BaseRegistry.register, hk₂], ?_, ?_⟩
    · simp [clookup_append, h₁, clookup]
    · simp [clookup_append, h₂, clookup, hne]

/-- C9 witness: re-registering the G1 key in the scraper registry raises
`ValueError` and leaves the registry unchanged; two fresh keys register
into the empty registry and resolve independently. -/
theorem register_duplicate_raises_fresh_succeed_witness :
    BaseRegistry.register scraper_registry "https://g1.globo.com/"
      "OtherScraper" = (some Err.valueError, scraper_registry) ∧
    BaseRegistry.register [] "https://a.example/" "AScraper" =
      (none, [("https://a.example/", "AScraper")]) ∧
    BaseRegistry.register [("https://a.example/", "AScraper")]
      "https://b.example/" "BScraper" =
      (none, [("https://a.example/", "AScraper"),
              ("https://b.example/", "BScraper")]) ∧
    clookup [("https://a.example/", "AScraper"),
             ("https://b.example/", "BScraper")] "https://a.example/" =
      some "AScraper" ∧
    clookup [("https://a.example/", "AScraper"),
             ("https://b.example/", "BScraper")] "https://b.example/" =
      some "BScraper" := by
  obtain ⟨h₁, h₂⟩ := register_duplicate_raises_fresh_succeed
  have hb := h₂ [] "https://a.example/" "https://b.example/" "AScraper"
    "BScraper" (by decide) rfl rfl
  exact ⟨h₁ scraper_registry "https://g1.globo.com/" "OtherScraper"
    "G1Scraper" rfl, hb.1, hb.2.1, hb.2.2.1, hb.2.2.2⟩

/-- Updating one task's phase changes `countInside` by the difference of the
old and new phase's contributions. -/
lemma countInside_set (l : List Phase) (i : Nat) (a v : Phase)
    (h : l.get? i = some a) :
    countInside (l.set i v) + (if isInside a then 1 else 0) =
      countInside l + (if isInside v then 1 else 0) := by
  induction l generalizing i with
  | nil => simp at h
  | cons hd tl ih =>
    cases i with
    | zero =>
      rw [List.get?_cons_zero] at h
      injection h with h
      subst h
      simp [countInside, List.countP_cons]
      omega
    | succ j =>
      rw [List.get?_cons_succ] at h
      have hc := ih j h
      simp [countInside, List.countP_cons] at hc ⊢
      omega

/-- One scheduler step keeps the number of semaphore holders at or below
the capacity. -/
lemma semStep_preserves_bound {k : Nat} {s s' : List Phase}
    (h : SemStep k s s') (hb : countInside s ≤ k) : countInside s' ≤ k := by
  cases h with
  | acquire i hi hk =>
    have hc := countInside_set s i Phase.pending Phase.inside hi
    simp [isInside] at hc
    omega
  | release i outcome hi =>
    have hc := countInside_set s i Phase.inside Phase.done hi
    simp [isInside] at hc
    omega

/-- No task holds the semaphore in the initial configuration. -/
lemma countInside_initPhases (n : Nat) : countInside (initPhases n) = 0 := by
  induction n with
  | zero => rfl
  | succ m ih =>
    simp only [initPhases, List.replicate_succ, countInside,
      List.countP_cons, isInside] at ih ⊢
    simp [ih]

/-- C3.  In every execution of the semaphore-guarded task discipline of
`BaseExecutor._task_wrapper` with capacity `k` -- every configuration
reachable from `n` submitted, unstarted tasks -- at most `k` tasks are
simultaneously inside the guarded section that resolves a handler and runs
its `process` call.  Entering requires an `acquire` step, enabled only
below capacity, and the only exit is the `release` step, which fires
whatever the handler call's outcome was (the `finally` of the `with`
block). -/
theorem semaphore_bounds_concurrency (k n : Nat) (s : List Phase)
    (h : Relation.ReflTransGen (SemStep k) (initPhases n) s) :
    countInside s ≤ k := by
  induction h with
  | refl => simp [countInside_initPhases]
  | tail _ hstep ih => exact semStep_preserves_bound hstep ih

/-- C3 witness: with capacity 1 and two submitted tasks, the configuration
reached by one acquire step has at most one holder. -/
theorem semaphore_bounds_concurrency_witness :
    countInside ((initPhases 2).set 0 Phase.inside) ≤ 1 :=
  semaphore_bounds_concurrency 1 2 _
    (Relation.ReflTransGen.single
      (SemStep.acquire (initPhases 2) 0 rfl (by decide)))

/-- A loop that breaks on some environment list breaks the same way when
further environments follow. -/
lemma crawlRun_append_of_stop {σ ε : Type} (step : σ → CrawlInput ε → StepRes σ)
    (s f : σ) (xs ys : List (CrawlInput ε))
    (h : crawlRun step s xs = some f) :
    crawlRun step s (xs ++ ys) = some f := by
  induction xs generalizing s with
  | nil => simp [crawlRun] at h
  | cons i rest ih =>
    cases hs : step s i with
    | stop s' =>
      simp only [crawlRun, hs] at h ⊢
      exact h
    | next s' =>
      simp only [crawlRun, hs] at h ⊢
      exact ih s' h

/-- A loop under a constant per-iteration environment that is still running
after `m` iterations and has broken after `m + 1` iterations breaks exactly
from length `m + 1` on. -/
lemma crawlRun_replicate_isSome_iff {σ ε : Type}
    (step : σ → CrawlInput ε → StepRes σ) (s₀ f : σ) (inp : CrawlInput ε)
    (m : Nat) (hnone : crawlRun step s₀ (List.replicate m inp) = none)
    (hsome : crawlRun step s₀ (List.replicate (m + 1) inp) = some f) :
    ∀ k, (crawlRun step s₀ (List.replicate k inp)).isSome ↔ m + 1 ≤ k := by
  intro k
  constructor
  · intro hs
    by_contra hk
    push_neg at hk
    obtain ⟨g, hg⟩ := Option.isSome_iff_exists.mp hs
    have hm : crawlRun step s₀ (List.replicate m inp) = some g := by
      have he : m = k + (m - k) := by omega
      rw [he, List.replicate_add]
      exact crawlRun_append_of_stop _ _ _ _ _ hg
    rw [hnone] at hm
    exact Option.noConfusion hm
  · intro hk
    have he : k = (m + 1) + (k - (m + 1)) := by omega
    rw [he, List.replicate_add]
    exact Option.isSome_iff_exists.mpr
      ⟨_, crawlRun_append_of_stop _ _ _ _ _ hsome⟩

/-- After its first constant-marker iteration, `BBCBrasilCrawler`'s loop
state is stationary: with no repeated-page counter, an unchanged marker
takes no branch at all, so the loop never breaks. -/
lemma bbc_constant_marker_stationary (m : Nat) :
    BBCBrasilCrawler.scroll_run 40 ⟨1, 1, 0⟩
      (List.replicate m ⟨0, MarkerEvent.page 1⟩) = none := by
  have hstep : BBCBrasilCrawler.scroll_step 40 ⟨1, 1, 0⟩
      ⟨0, MarkerEvent.page 1⟩ = StepRes.next ⟨1, 1, 0⟩ := by decide
  induction m with
  | zero => rfl
  | succ j ih =>
    rw [List.replicate_succ]
    show crawlRun (BBCBrasilCrawler.scroll_step 40) _ _ = none
    rw [crawlRun, hstep]
    exact ih

/-- C7, amended.  For the crawlers that track a repeated-page counter
(`G1Crawler`, `BandCrawler`, `CNNBrasilCrawler`), a "load more" control
reporting the same page marker on every iteration terminates the loop on
the `MAX_REPEATED_PAGE_COUNT + 1`-th consecutive unchanged-marker iteration
(the source breaks only when the counter strictly exceeds the threshold of
10): starting from the initial state with a constant marker, each of the
three loops is still running up to 11 iterations (1 marker change + 10
unchanged) and breaks exactly at the 12th.  `BBCBrasilCrawler.scroll_page`,
by contrast, has no repeated-page counter: under a constant marker its loop
never terminates within any number of iterations -- only its wall-clock,
retry, or scroll-limit bounds can stop it. -/
theorem repeated_marker_termination :
    (∀ k : Nat,
      (G1Crawler.scroll_run 50 ⟨0, 0, 0, 0⟩
        (List.replicate k ⟨0, MarkerEvent.page 1⟩)).isSome ↔ 12 ≤ k) ∧
    (∀ k : Nat,
      (BandCrawler.scroll_run 50 ⟨0, 0, 0, 0⟩
        (List.replicate k ⟨0, BandCrawler.Event.page 1⟩)).isSome ↔ 12 ≤ k) ∧
    (∀ k : Nat,
      (CNNBrasilCrawler.scroll_run 50 ⟨0, 0, 0, 0⟩
        (List.replicate k ⟨0, MarkerEvent.page 1⟩)).isSome ↔ 12 ≤ k) ∧
    (∀ k : Nat,
      BBCBrasilCrawler.scroll_run 40 ⟨0, 0, 0⟩
        (List.replicate k ⟨0, MarkerEvent.page 1⟩) = none) := by
  refine ⟨?_, ?_, ?_, ?_⟩
  · exact crawlRun_replicate_isSome_iff (G1Crawler.scroll_step 50)
      ⟨0, 0, 0, 0⟩ ⟨1, 1, 11, 0⟩ ⟨0, MarkerEvent.page 1⟩ 11
      (by decide) (by decide)
  · exact crawlRun_replicate_isSome_iff (BandCrawler.scroll_step 50)
      ⟨0, 0, 0, 0⟩ ⟨1, 1, 11, 0⟩ ⟨0, BandCrawler.Event.page 1⟩ 11
      (by decide) (by decide)
  · exact crawlRun_replicate_isSome_iff (CNNBrasilCrawler.scroll_step 50)
      ⟨0, 0, 0, 0⟩ ⟨1, 1, 11, 0⟩ ⟨0, MarkerEvent.page 1⟩ 11
      (by decide) (by decide)
  · intro k
    cases k with
    | zero => rfl
    | succ j =>
      rw [List.replicate_succ]
      have hstep : BBCBrasilCrawler.scroll_step 40 ⟨0, 0, 0⟩
          ⟨0, MarkerEvent.page 1⟩ = StepRes.next ⟨1, 1, 0⟩ := by decide
      show crawlRun (BBCBrasilCrawler.scroll_step 40) _ _ = none
      rw [crawlRun, hstep]
      exact bbc_constant_marker_stationary j

/-- The key list of a result dict. -/
def keys (d : ResultMap) : List String := d.map Prod.fst

lemma dlookup_isSome_iff (d : ResultMap) (k : String) :
    (dlookup d k).isSome ↔ k ∈ keys d := by
  induction d with
  | nil => simp [dlookup, keys]
  | cons hd tl ih =>
    obtain ⟨k', v⟩ := hd
    by_cases h : k' = k
    · simp [dlookup, keys, h]
    · simp [dlookup, keys, h, ih]
      intro he
      exact absurd he.symm h

lemma dlookup_dinsert_self (d : ResultMap) (k : String) (v : Bool) :
    dlookup (dinsert d k v) k = some v := by
  induction d with
  | nil => simp [dinsert, dlookup]
  | cons hd tl ih =>
    obtain ⟨k', v'⟩ := hd
    by_cases h : k' = k <;> simp [dinsert, dlookup, h, ih]

lemma dlookup_dinsert_ne (d : ResultMap) (k k' : String) (v : Bool)
    (h : k' ≠ k) : dlookup (dinsert d k v) k' = dlookup d k' := by
  induction d with
  | nil =>
    simp only [dinsert, dlookup]
    rw [if_neg (fun he => h he.symm)]
  | cons hd tl ih =>
    obtain ⟨k₀, v₀⟩ := hd
    by_cases h₀ : k₀ = k
    · subst h₀
      simp only [dinsert, if_pos rfl, dlookup]
      rw [if_neg (fun he => h he.symm), if_neg (fun he => h he.symm)]
    · simp only [dinsert, if_neg h₀, dlookup]
      by_cases h₁ : k₀ = k'
      · rw [if_pos h₁, if_pos h₁]
      · rw [if_neg h₁, if_neg h₁, ih]

/-- `dinsert` leaves the key list unchanged on overwrite and appends the
new key otherwise. -/
lemma keys_dinsert (d : ResultMap) (k : String) (v : Bool) :
    keys (dinsert d k v) =
      if k ∈ keys d then keys d else keys d ++ [k] := by
  induction d with
  | nil => simp [dinsert, keys]
  | cons hd tl ih =>
    obtain ⟨k₀, v₀⟩ := hd
    by_cases h : k₀ = k
    · subst h
      simp [dinsert, keys]
    · have hcond : k ∈ keys ((k₀, v₀) :: tl) ↔ k ∈ keys tl := by
        simp only [keys, List.map_cons, List.mem_cons]
        exact or_iff_right (fun he => h he.symm)
      rw [show dinsert ((k₀, v₀) :: tl) k v = (k₀, v₀) :: dinsert tl k v
        from by simp [dinsert, h]]
      rw [show keys ((k₀, v₀) :: dinsert tl k v) = k₀ :: keys (dinsert tl k v)
        from rfl, ih]
      by_cases hm : k ∈ keys tl
      · rw [if_pos hm, if_pos (hcond.mpr hm)]
        rfl
      · rw [if_neg hm, if_neg (fun hc => hm (hcond.mp hc))]
        rfl

lemma mem_keys_dinsert (d : ResultMap) (k k' : String) (v : Bool) :
    k' ∈ keys (dinsert d k v) ↔ k' = k ∨ k' ∈ keys d := by
  rw [keys_dinsert]
  by_cases h : k ∈ keys d
  · rw [if_pos h]
    constructor
    · exact Or.inr
    · rintro (rfl | hm)
      · exact h
      · exact hm
  · rw [if_neg h]
    rw [List.mem_append, List.mem_singleton]
    tauto

lemma nodup_keys_dinsert (d : ResultMap) (k : String) (v : Bool)
    (h : (keys d).Nodup) : (keys (dinsert d k v)).Nodup := by
  rw [keys_dinsert]
  by_cases hm : k ∈ keys d
  · rwa [if_pos hm]
  · rw [if_neg hm, List.nodup_append]
    refine ⟨h, List.nodup_singleton _, ?_⟩
    intro a ha hak
    rw [List.mem_singleton] at hak
    exact hm (hak ▸ ha)

lemma mem_keys_processFuture (t : ℚ) (st : ResultMap × Nat) (c : Completion)
    (k : String) :
    k ∈ keys (BaseExecutor.processFuture t st c).1 ↔
      k = c.link ∨ k ∈ keys st.1 := by
  unfold BaseExecutor.processFuture
  cases hco : c.outcome with
  | error e => simp [mem_keys_dinsert]
  | ok b =>
    cases hr : RateCalculator.calculate_rate t c.time (st.2 + 1) with
    | ok r => simp [hr, mem_keys_dinsert]
    | error e => simp [hr, mem_keys_dinsert]

lemma nodup_keys_processFuture (t : ℚ) (st : ResultMap × Nat)
    (c : Completion) (h : (keys st.1).Nodup) :
    (keys (BaseExecutor.processFuture t st c).1).Nodup := by
  unfold BaseExecutor.processFuture
  cases hco : c.outcome with
  | error e => exact nodup_keys_dinsert _ _ _ h
  | ok b =>
    cases hr : RateCalculator.calculate_rate t c.time (st.2 + 1) with
    | ok r => simpa [hr] using nodup_keys_dinsert _ _ _ h
    | error e =>
      simpa [hr] using
        nodup_keys_dinsert _ _ _ (nodup_keys_dinsert _ _ _ h)

lemma dlookup_processFuture_ne (t : ℚ) (st : ResultMap × Nat)
    (c : Completion) (k : String) (h : k ≠ c.link) :
    dlookup (BaseExecutor.processFuture t st c).1 k = dlookup st.1 k := by
  unfold BaseExecutor.processFuture
  cases hco : c.outcome with
  | error e => simpa using dlookup_dinsert_ne _ _ _ _ h
  | ok b =>
    cases hr : RateCalculator.calculate_rate t c.time (st.2 + 1) with
    | ok r => simpa [hr] using dlookup_dinsert_ne _ _ _ _ h
    | error e =>
      simp only [hr]
      rw [dlookup_dinsert_ne _ _ _ _ h, dlookup_dinsert_ne _ _ _ _ h]

lemma dlookup_foldl_not_mem (t : ℚ) (cs : List Completion)
    (st : ResultMap × Nat) (k : String)
    (h : k ∉ cs.map Completion.link) :
    dlookup (cs.foldl (BaseExecutor.processFuture t) st).1 k =
      dlookup st.1 k := by
  induction cs generalizing st with
  | nil => rfl
  | cons c rest ih =>
    simp only [List.map_cons, List.mem_cons] at h
    push_neg at h
    rw [List.foldl_cons, ih _ h.2]
    exact dlookup_processFuture_ne _ _ _ _ h.1

lemma mem_keys_foldl (t : ℚ) (cs : List Completion) (st : ResultMap × Nat)
    (k : String) :
    k ∈ keys (cs.foldl (BaseExecutor.processFuture t) st).1 ↔
      k ∈ cs.map Completion.link ∨ k ∈ keys st.1 := by
  induction cs generalizing st with
  | nil => simp
  | cons c rest ih =>
    rw [List.foldl_cons, ih]
    rw [mem_keys_processFuture]
    simp only [List.map_cons, List.mem_cons]
    tauto

lemma nodup_keys_foldl (t : ℚ) (cs : List Completion) (st : ResultMap × Nat)
    (h : (keys st.1).Nodup) :
    (keys (cs.foldl (BaseExecutor.processFuture t) st).1).Nodup := by
  induction cs generalizing st with
  | nil => exact h
  | cons c rest ih =>
    rw [List.foldl_cons]
    exact ih _ (nodup_keys_processFuture _ _ _ h)

/-- A link has an entry in `run`'s result dict exactly when some submitted
task completed for it. -/
lemma run_keys_mem (t : ℚ) (cs : List Completion) (l : String) :
    l ∈ keys (BaseExecutor.run t cs) ↔ l ∈ cs.map Completion.link := by
  rw [BaseExecutor.run, mem_keys_foldl]
  simp [keys]

/-- C1, amended.  For every input list of targets and every completion
order of the submitted tasks, the returned result map has exactly one entry
per **distinct** input target: its keys, without duplicates, are exactly
the set of input targets, and when the input targets are pairwise distinct
the map has exactly N entries.  (With duplicated input targets the dict
writes collapse onto one key, so the map has fewer than N entries.)  The
map is produced only after the fold has consumed every submitted task's
completion. -/
theorem run_one_entry_per_distinct_target (t : ℚ) (links : List String)
    (cs : List Completion) (hperm : List.Perm (cs.map Completion.link) links) :
    (∀ l, (dlookup (BaseExecutor.run t cs) l).isSome ↔ l ∈ links) ∧
    (keys (BaseExecutor.run t cs)).Nodup ∧
    (links.Nodup → (BaseExecutor.run t cs).length = links.length) := by
  have hkeys : ∀ l, l ∈ keys (BaseExecutor.run t cs) ↔ l ∈ links := by
    intro l
    rw [run_keys_mem]
    exact hperm.mem_iff
  have hnd : (keys (BaseExecutor.run t cs)).Nodup := by
    rw [BaseExecutor.run]
    exact nodup_keys_foldl _ _ _ (by simp [keys])
  refine ⟨fun l => (dlookup_isSome_iff _ _).trans (hkeys l), hnd, ?_⟩
  intro hlinks
  have hp : List.Perm (keys (BaseExecutor.run t cs)) links :=
    (List.perm_ext_iff_of_nodup hnd hlinks).mpr hkeys
  have hlen := hp.length_eq
  simpa [keys] using hlen

/-- C1 witness: a two-target batch with one success and one failure yields
a two-entry result map covering both targets. -/
theorem run_one_entry_per_distinct_target_witness :
    (BaseExecutor.run 0
      [Completion.mk "b" (Except.error Err.keyError) 1,
       Completion.mk "a" (Except.ok true) 1]).length = 2 ∧
    (dlookup (BaseExecutor.run 0
      [Completion.mk "b" (Except.error Err.keyError) 1,
       Completion.mk "a" (Except.ok true) 1]) "a").isSome := by
  have h := run_one_entry_per_distinct_target 0 ["b", "a"]
    [Completion.mk "b" (Except.error Err.keyError) 1,
     Completion.mk "a" (Except.ok true) 1] (List.Perm.refl _)
  exact ⟨h.2.2 (by decide), (h.1 "a").mpr (by decide)⟩

/-- A completion whose outcome is an exception, or the boolean `false`, is
recorded as `false` whatever the rate computation does: the error path's
`except` clause writes `false`, and on the `ok false` path both the normal
write and a possible telemetry-exception overwrite store `false`. -/
lemma dlookup_processFuture_self_false (t : ℚ) (st : ResultMap × Nat)
    (c : Completion)
    (h : (∃ e, c.outcome = Except.error e) ∨ c.outcome = Except.ok false) :
    dlookup (BaseExecutor.processFuture t st c).1 c.link = some false := by
  unfold BaseExecutor.processFuture
  rcases h with ⟨e, he⟩ | he
  · rw [he]
    exact dlookup_dinsert_self _ _ _
  · rw [he]
    cases hr : RateCalculator.calculate_rate t c.time (st.2 + 1) with
    | ok r =>
      simp only [hr]
      exact dlookup_dinsert_self _ _ _
    | error e =>
      simp only [hr]
      exact dlookup_dinsert_self _ _ _

/-- C2.  If for some target the handler resolution or the handler's
`process` call raises, then `run` records `false` for that target, every
input target still ends up with its own entry in the result map, and `run`
itself is a total function of the completions (no task exception propagates
out of it).  The two failure paths of `ScraperExecutor._run` are distinct:
a resolution failure (`KeyError` out of `registry.get`) escapes `_run` and
`_task_wrapper` and surfaces at `future.result()` (an `Except.error`
completion, recorded `false` by `run`'s `except` clause), while an
exception from the `extract` call is caught inside `_run`, which returns
`False` (an `Except.ok false` completion).  Both cases are captured by
`ScraperExecutor.runLink` and both lead to a `false` entry, regardless of
the telemetry step's outcome. -/
theorem run_isolates_failures (t : ℚ) (links : List String)
    (cs : List Completion) (l : String) (res : Except Err Instance)
    (ext : Except Err Unit) (tm : ℚ)
    (hperm : List.Perm (cs.map Completion.link) links) (hnd : links.Nodup)
    (hfail : (∃ e, res = Except.error e) ∨ ∃ e, ext = Except.error e)
    (hmem : Completion.mk l (ScraperExecutor.runLink res ext) tm ∈ cs) :
    dlookup (BaseExecutor.run t cs) l = some false ∧
    ∀ l' ∈ links, (dlookup (BaseExecutor.run t cs) l').isSome := by
  have hout : (∃ e, ScraperExecutor.runLink res ext = Except.error e) ∨
      ScraperExecutor.runLink res ext = Except.ok false := by
    rcases hfail with ⟨e, he⟩ | ⟨e, he⟩
    · subst he
      exact Or.inl ⟨e, rfl⟩
    · cases res with
      | error e' => exact Or.inl ⟨e', rfl⟩
      | ok inst =>
        subst he
        exact Or.inr rfl
  have hnd' : (cs.map Completion.link).Nodup := hperm.nodup_iff.mpr hnd
  constructor
  · obtain ⟨pre, post, rfl⟩ := List.append_of_mem hmem
    rw [List.map_append, List.map_cons] at hnd'
    have hpost : l ∉ post.map Completion.link :=
      (List.nodup_cons.mp (List.nodup_append.mp hnd').2.1).1
    rw [BaseExecutor.run, List.foldl_append, List.foldl_cons]
    rw [dlookup_foldl_not_mem _ _ _ _ hpost]
    exact dlookup_processFuture_self_false _ _ _ hout
  · intro l' hl'
    rw [dlookup_isSome_iff, run_keys_mem]
    exact hperm.mem_iff.mpr hl'

/-- C2 witness: a three-target batch in which target "a" succeeds, target
"b"'s `extract` raises (caught inside `_run`, task returns `False`), and
target "c"'s resolution raises `KeyError` (escaping to `future.result()`);
the `process`-failure target "b" is recorded `false` and all three targets
have entries. -/
theorem run_isolates_failures_witness :
    dlookup (BaseExecutor.run 0
      [Completion.mk "a"
        (ScraperExecutor.runLink (Except.ok ⟨"G1Scraper", 0⟩)
          (Except.ok ())) 1,
       Completion.mk "b"
        (ScraperExecutor.runLink (Except.ok ⟨"G1Scraper", 1⟩)
          (Except.error Err.valueError)) 1,
       Completion.mk "c"
        (ScraperExecutor.runLink (Except.error Err.keyError)
          (Except.ok ())) 1]) "b" = some false ∧
    ∀ l' ∈ ["a", "b", "c"],
      (dlookup (BaseExecutor.run 0
        [Completion.mk "a"
          (ScraperExecutor.runLink (Except.ok ⟨"G1Scraper", 0⟩)
            (Except.ok ())) 1,
         Completion.mk "b"
          (ScraperExecutor.runLink (Except.ok ⟨"G1Scraper", 1⟩)
            (Except.error Err.valueError)) 1,
         Completion.mk "c"
          (ScraperExecutor.runLink (Except.error Err.keyError)
            (Except.ok ())) 1]) l').isSome :=
  run_isolates_failures 0 ["a", "b", "c"]
    [Completion.mk "a"
      (ScraperExecutor.runLink (Except.ok ⟨"G1Scraper", 0⟩)
        (Except.ok ())) 1,
     Completion.mk "b"
      (ScraperExecutor.runLink (Except.ok ⟨"G1Scraper", 1⟩)
        (Except.error Err.valueError)) 1,
     Completion.mk "c"
      (ScraperExecutor.runLink (Except.error Err.keyError)
        (Except.ok ())) 1]
    "b" (Except.ok ⟨"G1Scraper", 1⟩) (Except.error Err.valueError) 1
    (List.Perm.refl _) (by decide)
    (Or.inr ⟨Err.valueError, rfl⟩)
    (List.mem_cons_of_mem _ (List.mem_cons_self _ _))

/-- C10, amended.  For a completed task that returned boolean `b`, the
recorded entry equals `b` **provided the telemetry step does not raise** --
that is, the completion's `time.time()` differs from the run's start time,
so the rate's divisor is nonzero.  (When the rate computation raises
`ZeroDivisionError`, the loop's `except` clause overwrites the entry with
`False`: the telemetry step is inside the `try` and can change the recorded
result.) -/
theorem run_records_outcome_when_rate_ok (t : ℚ) (links : List String)
    (cs : List Completion) (l : String) (b : Bool) (tm : ℚ)
    (hperm : List.Perm (cs.map Completion.link) links) (hnd : links.Nodup)
    (hmem : Completion.mk l (Except.ok b) tm ∈ cs) (htm : tm ≠ t) :
    dlookup (BaseExecutor.run t cs) l = some b := by
  have hnd' : (cs.map Completion.link).Nodup := hperm.nodup_iff.mpr hnd
  obtain ⟨pre, post, rfl⟩ := List.append_of_mem hmem
  rw [List.map_append, List.map_cons] at hnd'
  have hpost : l ∉ post.map Completion.link :=
    (List.nodup_cons.mp (List.nodup_append.mp hnd').2.1).1
  rw [BaseExecutor.run, List.foldl_append, List.foldl_cons]
  rw [dlookup_foldl_not_mem _ _ _ _ hpost]
  simp only [BaseExecutor.processFuture, RateCalculator.calculate_rate]
  rw [if_neg (by
    rw [div_eq_zero_iff]
    push_neg
    exact ⟨sub_ne_zero_of_ne htm, by norm_num⟩)]
  exact dlookup_dinsert_self _ _ _

/-- C10 witness: a task returning `True` at a nonzero elapsed time is
recorded as `True`. -/
theorem run_records_outcome_when_rate_ok_witness :
    dlookup (BaseExecutor.run 0 [Completion.mk "a" (Except.ok true) 1])
      "a" = some true :=
  run_records_outcome_when_rate_ok 0 ["a"]
    [Completion.mk "a" (Except.ok true) 1] "a" true 1
    (List.Perm.refl _) (by decide) (List.mem_singleton.mpr rfl)
    (by norm_num)

end NewsSummarizer
